import Mathlib

/-!
Shallow embedding of the database-advanced repository: the MongoDB library
catalog (book_manager.py, user_manager.py, mongodb_client.py) and the
Elasticsearch movie search engine (movie_search_engine.py).

Each manager method is embedded as a pure Lean function over an explicit
state: the addressed book document (an `Option Book`, `none` meaning the
document is absent from the collection), the planned outcome of the single
underlying driver call (`DriverOutcome`), or the sequence of connection
attempt outcomes.  Python ints become `Int`/`Nat`, Python floats become `Rat`
with Python's banker's rounding made explicit, dicts become association
lists, and the query documents built by the query-builder methods become
concrete inductive structures mirroring the dict literals in the source.
-/

namespace DBAdvanced

/-- Python's `round` uses round-half-to-even (banker's rounding). -/
def roundHalfEven (q : ℚ) : ℤ :=
  let f : ℤ := ⌊q⌋
  let frac : ℚ := q - f
  if frac < 1/2 then f
  else if 1/2 < frac then f + 1
  else if f % 2 = 0 then f else f + 1

/-- Python's `round(x, 2)`: banker's rounding to two decimal places. -/
def round2 (q : ℚ) : ℚ := (roundHalfEven (q * 100) : ℚ) / 100

/-- The `ratings` sub-document of a book document: fields `average`, `count`
and `distribution`, as read by `BookManager.add_rating` (defaults `0`, `0`,
`[0,0,0,0,0]` when absent are folded into the structure). -/
structure Ratings where
  average : ℚ
  count : ℕ
  distribution : List ℕ
deriving DecidableEq

/-- A book document of the `books` collection, restricted to the fields the
embedded operations read and write. -/
structure Book where
  available_copies : ℤ
  total_copies : ℤ
  ratings : Ratings
deriving DecidableEq

/-- One clause of a MongoDB filter document as used by the `update_one`
calls on the books collection: the `_id` equality clause, or the
`"available_copies": {"$gt": n}` clause. -/
inductive MongoCond
  | eqId
  | gtAvailable (n : ℤ)
deriving DecidableEq

/-- Whether one filter clause matches the addressed book document. -/
def matchesCond (b : Book) : MongoCond → Bool
  | .eqId => true
  | .gtAvailable n => decide (n < b.available_copies)

/-- Whether a filter document (conjunction of clauses) matches the book. -/
def matchesFilter (f : List MongoCond) (b : Book) : Bool :=
  f.all (matchesCond b)

/-- The filter document of the `update_one` call in
`BookManager.borrow_book` (book_manager.py line 390):
`{"_id": book_id, "available_copies": {"$gt": 0}}`. -/
def bookBorrowUpdateFilter : List MongoCond := [.eqId, .gtAvailable 0]

/-- The filter document of the decrementing `update_one` call in
`UserManager.borrow_book` (user_manager.py line 240): `{"_id": book_id}`. -/
def userBorrowUpdateFilter : List MongoCond := [.eqId]

/-- The filter document of the `update_one` call in
`BookManager.return_book` (book_manager.py line 437): `{"_id": book_id}`. -/
def returnUpdateFilter : List MongoCond := [.eqId]

/-- Does a filter clause constrain the book's availability? -/
def mentionsAvailability : MongoCond → Bool
  | .gtAvailable _ => true
  | .eqId => false

/-- `BookManager.borrow_book`: fails when the book is absent or has no
available copies; otherwise issues the guarded `update_one` (filter
`bookBorrowUpdateFilter`) decrementing `available_copies`, and reports
success iff the update modified the document. -/
def borrow_book : Option Book → Option Book × Bool
  | none => (none, false)
  | some b =>
    if b.available_copies ≤ 0 then (some b, false)
    else if matchesFilter bookBorrowUpdateFilter b then
      (some { b with available_copies := b.available_copies - 1 }, true)
    else (some b, false)

/-- `BookManager.return_book`: fails when the book is absent or already at
its maximum number of copies; otherwise issues the `update_one` (filter
`returnUpdateFilter`, no availability guard) incrementing
`available_copies`. -/
def return_book : Option Book → Option Book × Bool
  | none => (none, false)
  | some b =>
    if b.total_copies ≤ b.available_copies then (some b, false)
    else if matchesFilter returnUpdateFilter b then
      (some { b with available_copies := b.available_copies + 1 }, true)
    else (some b, false)

/-- `BookManager.add_rating`: rejects ratings outside `1..5`, fails when the
book is absent, otherwise recomputes count, average (Python
`round(_, 2)`) and the distribution entry `rating - 1`.  Indexing
`distribution[rating - 1]` outside the list raises `IndexError`, which the
broad `except` catches, returning `False` with the document unchanged. -/
def add_rating (ob : Option Book) (rating : ℤ) : Option Book × Bool :=
  if rating < 1 ∨ 5 < rating then (ob, false)
  else
    match ob with
    | none => (none, false)
    | some book =>
      let avg := book.ratings.average
      let cnt := book.ratings.count
      let dist := book.ratings.distribution
      let newCount := cnt + 1
      let newAverage : ℚ := ((avg * cnt) + rating) / newCount
      let idx := (rating - 1).toNat
      match dist[idx]? with
      | none => (some book, false)
      | some cur =>
        (some { book with
                 ratings := { average := round2 newAverage,
                              count := newCount,
                              distribution := dist.set idx (cur + 1) } }, true)

/-- `BookManager.update_availability`: overwrites whichever of
`available_copies` / `total_copies` is supplied, with no validation. -/
def update_availability (ob : Option Book) (ac tc : Option ℤ) :
    Option Book × Bool :=
  match ob with
  | none => (none, false)
  | some b =>
    let b := match ac with | some v => { b with available_copies := v } | none => b
    let b := match tc with | some v => { b with total_copies := v } | none => b
    (some b, true)

/-! ### Elasticsearch movie search engine -/

/-- A JSON-like value, enough to model the dict entries the search engine
moves around. -/
inductive JsonVal
  | vStr (s : String)
  | vNum (q : ℚ)
  | vObj (l : List (String × JsonVal))

/-- A Python dict, modelled as an association list.  Lookup finds the first
binding of a key. -/
def dictLookup (k : String) : List (String × JsonVal) → Option JsonVal
  | [] => none
  | (k', v) :: rest => if k' = k then some v else dictLookup k rest

/-- Python dict assignment `d[k] = v`: replace the binding in place when the
key is present, append it otherwise. -/
def dictInsert (k : String) (v : JsonVal) :
    List (String × JsonVal) → List (String × JsonVal)
  | [] => [(k, v)]
  | (k', v') :: rest =>
    if k' = k then (k, v) :: rest else (k', v') :: dictInsert k v rest

/-- One entry of `response["hits"]["hits"]`: the `_source` dict, `_id`,
`_score`, and the optional `highlight` field. -/
structure EsHit where
  source : List (String × JsonVal)
  id : String
  score : JsonVal
  highlight : Option (List (String × JsonVal))

/-- The `hits.total` sub-dict, whose `value` field may be absent. -/
structure EsTotalBlock where
  value : Option ℤ

/-- The `response["hits"]` block; each field may be absent, matching the
`.get` defaults in `_format_search_response`. -/
structure EsHitsBlock where
  hits : List EsHit
  total : Option EsTotalBlock
  max_score : Option JsonVal

/-- A raw Elasticsearch search response, restricted to the fields
`_format_search_response` reads. -/
structure EsResponse where
  hits : Option EsHitsBlock
  took : Option ℕ

/-- The empty dict `{}` substituted by `response.get("hits", {})`. -/
def emptyHitsBlock : EsHitsBlock := ⟨[], none, none⟩

/-- The hit list the formatter iterates over: `response.get("hits",
\x7b\x7d).get("hits", [])`. -/
def hitsOf (r : EsResponse) : List EsHit := (r.hits.getD emptyHitsBlock).hits

/-- The formatted search result returned by the search engine: `error` is
present only on the failure path, `max_score` only on the success path. -/
structure SearchResult where
  error : Option String
  results : List (List (String × JsonVal))
  total : ℤ
  took : ℕ
  max_score : Option JsonVal

/-- Formatting of one hit inside `_format_search_response`:
`movie = hit["_source"]; movie["id"] = hit["_id"];
movie["score"] = hit["_score"]`, then `movie["highlights"] =
hit["highlight"]` when the hit carries highlights. -/
def formatHit (hit : EsHit) : List (String × JsonVal) :=
  let movie := dictInsert "score" hit.score (dictInsert "id" (.vStr hit.id) hit.source)
  match hit.highlight with
  | some h => dictInsert "highlights" (.vObj h) movie
  | none => movie

/-- `MovieSearchEngine._format_search_response` (movie_search_engine.py
lines 190-219). -/
def format_search_response (r : EsResponse) : SearchResult :=
  let hb := r.hits.getD emptyHitsBlock
  { error := none
    results := (hitsOf r).map formatHit
    total := (hb.total.map (fun t => t.value.getD 0)).getD 0
    took := r.took.getD 0
    max_score := some (hb.max_score.getD (.vNum 0)) }

/-- The planned outcome of the one underlying driver call an operation
makes: a normal result, or a raised exception with its message. -/
inductive DriverOutcome (α : Type)
  | ok (a : α)
  | exn (msg : String)

/-- A log record emitted through the `logging` module. -/
inductive LogLevel
  | info
  | warning
  | error
deriving DecidableEq

/-- One emitted log line: severity and message. -/
structure LogEntry where
  level : LogLevel
  msg : String
deriving DecidableEq

/-- `MovieSearchEngine.search_movies` around its driver call: on success the
response is reshaped by `_format_search_response`; on an exception the
sentinel dict `{"error": ..., "results": [], "total": 0, "took": 0}` is
returned.  The class has no logger, so neither path emits a log entry. -/
def search_movies (outcome : DriverOutcome EsResponse) :
    SearchResult × List LogEntry :=
  match outcome with
  | .ok r => (format_search_response r, [])
  | .exn e =>
    ({ error := some ("Search failed: " ++ e), results := [], total := 0,
       took := 0, max_score := none }, [])

/-- `BookManager.find_all_books`: returns the found documents, and on an
exception logs the error and returns `[]`. -/
def find_all_books (outcome : DriverOutcome (List Book)) :
    List Book × List LogEntry :=
  match outcome with
  | .ok books => (books, [])
  | .exn e => ([], [⟨.error, "Error finding all books: " ++ e⟩])

/-- `MovieManager.update_movie_rating` (movie_manager.py lines 373-405):
runs the parameterized Cypher update; a non-empty result logs info and
returns `True`, an empty result logs a warning and returns `False`, and an
exception logs the error and returns `False`. -/
def update_movie_rating (title : String)
    (outcome : DriverOutcome (List String)) : Bool × List LogEntry :=
  match outcome with
  | .ok result =>
    if result.isEmpty then (false, [⟨.warning, "Movie not found: " ++ title⟩])
    else (true, [⟨.info, "Updated rating for " ++ title⟩])
  | .exn e =>
    (false, [⟨.error, "Error updating rating for " ++ title ++ ": " ++ e⟩])

/-! ### MongoDB connection retry loop -/

/-- The outcome of one connection attempt inside `MongoDBClient.connect`:
success, a transient failure (`ConnectionFailure` /
`ServerSelectionTimeoutError`), or any other exception. -/
inductive AttemptResult
  | success
  | transient
  | permanent
deriving DecidableEq

/-- `MongoDBClient.connect` (mongodb_client.py lines 37-81), driven by the
planned outcomes of its successive attempts (one list entry per loop
iteration, so the list length is `max_retries`).  Returns the boolean result
together with the number of attempts actually made: success returns
immediately; a transient failure retries while iterations remain; any other
exception aborts at once. -/
def connectLoop : List AttemptResult → Bool × ℕ
  | [] => (false, 0)
  | o :: rest =>
    match o with
    | .success => (true, 1)
    | .transient =>
      if rest.isEmpty then (false, 1)
      else
        let p := connectLoop rest
        (p.1, p.2 + 1)
    | .permanent => (false, 1)

/-! ### Query builders -/

/-- The `filters` dict accepted by `BookManager.search_books_advanced`.
Absent keys are `none`; `filters.get(k)` is falsy for `none`, the empty
string, `0` and `False`. -/
structure BookFilters where
  title : Option String
  author : Option String
  genre : Option String
  min_year : Option ℤ
  max_year : Option ℤ
  min_rating : Option ℚ
  max_rating : Option ℚ
  available_only : Option Bool

/-- Python truthiness of an optional string. -/
def truthyStr : Option String → Bool
  | none => false
  | some s => s ≠ ""

/-- Python truthiness of an optional int. -/
def truthyInt : Option ℤ → Bool
  | none => false
  | some n => n ≠ 0

/-- Python truthiness of an optional float. -/
def truthyRat : Option ℚ → Bool
  | none => false
  | some q => q ≠ 0

/-- Python truthiness of an optional bool. -/
def truthyBool : Option Bool → Bool
  | none => false
  | some b => b

/-- The MongoDB query document built by `search_books_advanced`: regex
clauses for title / author / genre, optional `$gte`/`$lte` range dicts for
year and rating (present only when non-empty), and the availability
clause. -/
structure MongoQuery where
  title : Option String
  author : Option String
  genres : Option String
  year : Option (Option ℤ × Option ℤ)
  rating : Option (Option ℚ × Option ℚ)
  available : Bool
deriving DecidableEq

/-- `BookManager.search_books_advanced` (book_manager.py lines 195-231),
restricted to the query document it assembles before the `find` call. -/
def search_books_advanced_query (f : BookFilters) : MongoQuery :=
  let title := if truthyStr f.title then f.title else none
  let author := if truthyStr f.author then f.author else none
  let genres := if truthyStr f.genre then f.genre else none
  let yearGte := if truthyInt f.min_year then f.min_year else none
  let yearLte := if truthyInt f.max_year then f.max_year else none
  let year := if yearGte.isSome || yearLte.isSome then some (yearGte, yearLte) else none
  let ratingGte := if truthyRat f.min_rating then f.min_rating else none
  let ratingLte := if truthyRat f.max_rating then f.max_rating else none
  let rating := if ratingGte.isSome || ratingLte.isSome then some (ratingGte, ratingLte) else none
  let available := truthyBool f.available_only
  { title := title, author := author, genres := genres,
    year := year, rating := rating, available := available }

/-- One clause of the Elasticsearch bool query's `must` list. -/
inductive EsMust
  | matchAll
  | multiMatch (q : String)
deriving DecidableEq

/-- One clause of the Elasticsearch bool query's `filter` list. -/
inductive EsFilter
  | termGenres (g : String)
  | rangeYear (gte lte : Option ℤ)
  | rangeRating (gte lte : Option ℚ)
  | matchDirector (d : String)
deriving DecidableEq

/-- The `search_body["query"]["bool"]` structure built by
`_build_search_query`. -/
structure EsQuery where
  must : List EsMust
  filter : List EsFilter
deriving DecidableEq

/-- `MovieSearchEngine._build_search_query` (movie_search_engine.py lines
101-168): text clause (or `match_all`), then genre, year-range,
rating-range and director filters, each appended only when its argument is
truthy. -/
def build_search_query (query genre : Option String)
    (min_year max_year : Option ℤ) (min_rating max_rating : Option ℚ)
    (director : Option String) : EsQuery :=
  let must := if truthyStr query then [EsMust.multiMatch (query.getD "")]
              else [EsMust.matchAll]
  let f1 := if truthyStr genre then [EsFilter.termGenres (genre.getD "")] else []
  let yearGte := if truthyInt min_year then min_year else none
  let yearLte := if truthyInt max_year then max_year else none
  let f2 := if yearGte.isSome || yearLte.isSome then [EsFilter.rangeYear yearGte yearLte] else []
  let ratingGte := if truthyRat min_rating then min_rating else none
  let ratingLte := if truthyRat max_rating then max_rating else none
  let f3 := if ratingGte.isSome || ratingLte.isSome then [EsFilter.rangeRating ratingGte ratingLte] else []
  let f4 := if truthyStr director then [EsFilter.matchDirector (director.getD "")] else []
  { must := must, filter := f1 ++ f2 ++ f3 ++ f4 }

/-! ### Theorems -/

/-- Claim C1: `borrow_book` decrements `available_copies` by exactly 1 and
returns `True` when `available_copies > 0`, and returns `False` leaving the
document unchanged when `available_copies <= 0`; `return_book` increments
`available_copies` by exactly 1 and returns `True` when
`available_copies < total_copies`, and returns `False` leaving it unchanged
when `available_copies >= total_copies`. -/
theorem C1_borrow_return (b : Book) :
    (0 < b.available_copies →
      borrow_book (some b) =
        (some { b with available_copies := b.available_copies - 1 }, true)) ∧
    (b.available_copies ≤ 0 → borrow_book (some b) = (some b, false)) ∧
    (b.available_copies < b.total_copies →
      return_book (some b) =
        (some { b with available_copies := b.available_copies + 1 }, true)) ∧
    (b.total_copies ≤ b.available_copies →
      return_book (some b) = (some b, false)) := by
  refine ⟨?_, ?_, ?_, ?_⟩
  · intro h
    simp [borrow_book, matchesFilter, bookBorrowUpdateFilter, matchesCond,
      not_le.mpr h, h]
  · intro h
    simp [borrow_book, h]
  · intro h
    simp [return_book, matchesFilter, returnUpdateFilter, matchesCond,
      not_le.mpr h]
  · intro h
    simp [return_book, h]

/-- Witness for C1 at concrete books. -/
theorem C1_borrow_return_witness :
    borrow_book (some ⟨2, 3, ⟨0, 0, [0, 0, 0, 0, 0]⟩⟩) =
      (some ⟨1, 3, ⟨0, 0, [0, 0, 0, 0, 0]⟩⟩, true) ∧
    borrow_book (some ⟨0, 3, ⟨0, 0, [0, 0, 0, 0, 0]⟩⟩) =
      (some ⟨0, 3, ⟨0, 0, [0, 0, 0, 0, 0]⟩⟩, false) ∧
    return_book (some ⟨2, 3, ⟨0, 0, [0, 0, 0, 0, 0]⟩⟩) =
      (some ⟨3, 3, ⟨0, 0, [0, 0, 0, 0, 0]⟩⟩, true) ∧
    return_book (some ⟨3, 3, ⟨0, 0, [0, 0, 0, 0, 0]⟩⟩) =
      (some ⟨3, 3, ⟨0, 0, [0, 0, 0, 0, 0]⟩⟩, false) :=
  ⟨(C1_borrow_return ⟨2, 3, ⟨0, 0, [0, 0, 0, 0, 0]⟩⟩).1 (by decide),
   (C1_borrow_return ⟨0, 3, ⟨0, 0, [0, 0, 0, 0, 0]⟩⟩).2.1 (by decide),
   (C1_borrow_return ⟨2, 3, ⟨0, 0, [0, 0, 0, 0, 0]⟩⟩).2.2.1 (by decide),
   (C1_borrow_return ⟨3, 3, ⟨0, 0, [0, 0, 0, 0, 0]⟩⟩).2.2.2 (by decide)⟩

/-- Claim C3: a book satisfying `0 ≤ available_copies ≤ total_copies` still
satisfies it after `borrow_book` and after `return_book`. -/
theorem C3_invariant (b : Book) (h0 : 0 ≤ b.available_copies)
    (ht : b.available_copies ≤ b.total_copies) :
    (∀ b' r, borrow_book (some b) = (some b', r) →
      0 ≤ b'.available_copies ∧ b'.available_copies ≤ b'.total_copies) ∧
    (∀ b' r, return_book (some b) = (some b', r) →
      0 ≤ b'.available_copies ∧ b'.available_copies ≤ b'.total_copies) := by
  constructor
  · intro b' r heq
    by_cases ha : b.available_copies ≤ 0
    · rw [(C1_borrow_return b).2.1 ha] at heq
      simp only [Prod.mk.injEq, Option.some.injEq] at heq
      obtain ⟨hb, -⟩ := heq
      subst hb
      exact ⟨h0, ht⟩
    · rw [(C1_borrow_return b).1 (lt_of_not_le ha)] at heq
      simp only [Prod.mk.injEq, Option.some.injEq] at heq
      obtain ⟨hb, -⟩ := heq
      subst hb
      refine ⟨?_, ?_⟩
      · show 0 ≤ b.available_copies - 1
        omega
      · show b.available_copies - 1 ≤ b.total_copies
        omega
  · intro b' r heq
    by_cases ha : b.total_copies ≤ b.available_copies
    · rw [(C1_borrow_return b).2.2.2 ha] at heq
      simp only [Prod.mk.injEq, Option.some.injEq] at heq
      obtain ⟨hb, -⟩ := heq
      subst hb
      exact ⟨h0, ht⟩
    · rw [(C1_borrow_return b).2.2.1 (lt_of_not_le ha)] at heq
      simp only [Prod.mk.injEq, Option.some.injEq] at heq
      obtain ⟨hb, -⟩ := heq
      subst hb
      refine ⟨?_, ?_⟩
      · show 0 ≤ b.available_copies + 1
        omega
      · show b.available_copies + 1 ≤ b.total_copies
        omega

/-- Witness for C3 at a concrete book. -/
theorem C3_invariant_witness :
    (0 : ℤ) ≤ 0 ∧ (0 : ℤ) ≤ 4 :=
  (C3_invariant ⟨1, 4, ⟨0, 0, []⟩⟩ (by decide) (by decide)).1
    ⟨0, 4, ⟨0, 0, []⟩⟩ true (by decide)

/-- Claim C4: for a book with `0 < available_copies ≤ total_copies`, a
borrow followed by a return both succeed and restore `available_copies`. -/
theorem C4_round_trip (b : Book) (h0 : 0 < b.available_copies)
    (ht : b.available_copies ≤ b.total_copies) :
    ∃ b1, borrow_book (some b) = (some b1, true) ∧
      ∃ b2, return_book (some b1) = (some b2, true) ∧
        b2.available_copies = b.available_copies := by
  refine ⟨{ b with available_copies := b.available_copies - 1 },
    (C1_borrow_return b).1 h0,
    { b with available_copies := b.available_copies - 1 + 1 }, ?_, ?_⟩
  · refine (C1_borrow_return
      { b with available_copies := b.available_copies - 1 }).2.2.1 ?_
    show b.available_copies - 1 < b.total_copies
    omega
  · show b.available_copies - 1 + 1 = b.available_copies
    omega

/-- Witness for C4 at a concrete book. -/
theorem C4_round_trip_witness :
    ∃ b1, borrow_book (some (⟨1, 1, ⟨0, 0, []⟩⟩ : Book)) = (some b1, true) ∧
      ∃ b2, return_book (some b1) = (some b2, true) ∧
        b2.available_copies = (1 : ℤ) :=
  C4_round_trip ⟨1, 1, ⟨0, 0, []⟩⟩ (by decide) (by decide)

/-- Claim C9: for an existing book and a rating in `1..5`, `add_rating`
stores `count + 1`, the average `round(((average * count) + rating) /
(count + 1), 2)`, and increments only the distribution entry
`rating - 1`. -/
theorem C9_add_rating (b : Book) (rating : ℤ) (h1 : 1 ≤ rating)
    (h5 : rating ≤ 5) (hlen : b.ratings.distribution.length = 5) :
    (add_rating (some b) rating).2 = true ∧
    ((add_rating (some b) rating).1.map fun x => x.ratings.count) =
      some (b.ratings.count + 1) ∧
    ((add_rating (some b) rating).1.map fun x => x.ratings.average) =
      some (round2 ((b.ratings.average * b.ratings.count + rating) /
        ((b.ratings.count + 1 : ℕ) : ℚ))) ∧
    ((add_rating (some b) rating).1.map
        fun x => x.ratings.distribution[(rating - 1).toNat]?) =
      some ((b.ratings.distribution[(rating - 1).toNat]?).map
        fun n => n + 1) ∧
    (∀ i, i ≠ (rating - 1).toNat →
      ((add_rating (some b) rating).1.map
          fun x => x.ratings.distribution[i]?) =
        some (b.ratings.distribution[i]?)) := by
  have hidx : (rating - 1).toNat < b.ratings.distribution.length := by omega
  obtain ⟨cur, hcur⟩ :
      ∃ cur, b.ratings.distribution[(rating - 1).toNat]? = some cur :=
    ⟨_, List.getElem?_eq_getElem hidx⟩
  have hred : add_rating (some b) rating =
      (some { b with ratings := {
          average := round2 ((b.ratings.average * b.ratings.count + rating) /
            ((b.ratings.count + 1 : ℕ) : ℚ)),
          count := b.ratings.count + 1,
          distribution := b.ratings.distribution.set (rating - 1).toNat
            (cur + 1) } }, true) := by
    unfold add_rating
    rw [if_neg (by omega)]
    simp only [hcur]
  rw [hred]
  refine ⟨rfl, rfl, rfl, ?_, ?_⟩
  · rw [hcur]
    exact congrArg some (List.getElem?_set_eq_of_lt _ hidx)
  · intro i hi
    exact congrArg some (List.getElem?_set_ne hi.symm)

/-- Witness for C9 at a concrete book and rating. -/
theorem C9_add_rating_witness :
    (add_rating (some ⟨2, 3, ⟨4, 2, [0, 0, 1, 1, 0]⟩⟩) 3).2 = true ∧
    ((add_rating (some ⟨2, 3, ⟨4, 2, [0, 0, 1, 1, 0]⟩⟩) 3).1.map
        fun x => x.ratings.count) = some 3 ∧
    ((add_rating (some ⟨2, 3, ⟨4, 2, [0, 0, 1, 1, 0]⟩⟩) 3).1.map
        fun x => x.ratings.average) = some (round2 ((4 * 2 + 3) / 3)) ∧
    ((add_rating (some ⟨2, 3, ⟨4, 2, [0, 0, 1, 1, 0]⟩⟩) 3).1.map
        fun x => x.ratings.distribution[(2 : ℕ)]?) = some (some 2) ∧
    ((add_rating (some ⟨2, 3, ⟨4, 2, [0, 0, 1, 1, 0]⟩⟩) 3).1.map
        fun x => x.ratings.distribution[(0 : ℕ)]?) = some (some 0) := by
  have h := C9_add_rating ⟨2, 3, ⟨4, 2, [0, 0, 1, 1, 0]⟩⟩ 3
    (by decide) (by decide) (by decide)
  exact ⟨h.1, h.2.1, h.2.2.1, h.2.2.2.1, h.2.2.2.2 0 (by decide)⟩

/-- Claim C7 counterexample: `BookManager.add_rating` rejects the rating
value 6 with an application-side range check, returning `False` and
leaving the document unchanged — so not every input value is passed
through without validation. -/
theorem C7_counterexample :
    add_rating (some ⟨1, 1, ⟨0, 0, [0, 0, 0, 0, 0]⟩⟩) 6 =
      (some ⟨1, 1, ⟨0, 0, [0, 0, 0, 0, 0]⟩⟩, false) := by
  decide

/-- Claim C7 (amended): the application code performs no validation of
entity fields except for rating values: `BookManager.add_rating` (and
`UserManager.return_book`) reject ratings outside `1..5` with a range
check, while other update inputs such as the copy counts given to
`update_availability` are passed through unchecked. -/
theorem C7_validation (b : Book) (rating v : ℤ)
    (hout : rating < 1 ∨ 5 < rating) :
    add_rating (some b) rating = (some b, false) ∧
    update_availability (some b) (some v) none =
      (some { b with available_copies := v }, true) := by
  constructor
  · unfold add_rating
    rw [if_pos hout]
  · rfl

/-- Witness for the amended C7 at a concrete book and values. -/
theorem C7_validation_witness :
    add_rating (some ⟨2, 3, ⟨0, 0, []⟩⟩) 0 = (some ⟨2, 3, ⟨0, 0, []⟩⟩, false) ∧
    update_availability (some ⟨2, 3, ⟨0, 0, []⟩⟩) (some (-7)) none =
      (some ⟨-7, 3, ⟨0, 0, []⟩⟩, true) :=
  C7_validation ⟨2, 3, ⟨0, 0, []⟩⟩ 0 (-7) (Or.inl (by decide))

/-- Claim C5 counterexample: the `update_one` filter used by
`BookManager.borrow_book` does attach a condition on the book's
availability (`available_copies > 0`), so not every borrow decrement is an
unguarded update. -/
theorem C5_counterexample :
    bookBorrowUpdateFilter.any mentionsAvailability = true := by
  decide

/-- Claim C5 (amended): the decrement issued by `UserManager.borrow_book`
attaches no condition on the book's availability, while the decrement
issued by `BookManager.borrow_book` is guarded by the filter clause
`available_copies > 0`, which matches exactly the books with a positive
number of available copies. -/
theorem C5_guards :
    userBorrowUpdateFilter.all (fun c => !mentionsAvailability c) = true ∧
    bookBorrowUpdateFilter.any mentionsAvailability = true ∧
    (∀ b : Book, matchesFilter bookBorrowUpdateFilter b =
      decide (0 < b.available_copies)) ∧
    (∀ b : Book, matchesFilter userBorrowUpdateFilter b = true) := by
  refine ⟨by decide, by decide, ?_, ?_⟩
  · intro b
    simp [matchesFilter, bookBorrowUpdateFilter, matchesCond]
  · intro b
    simp [matchesFilter, userBorrowUpdateFilter, matchesCond]

/-- Claim C6 counterexample: `MongoDBClient.connect` makes two attempts
when the first fails transiently (a retry policy), and treats a transient
first failure differently from a permanent one. -/
theorem C6_counterexample :
    connectLoop [.transient, .success] = (true, 2) ∧
    connectLoop [.permanent, .success] = (false, 1) := by
  decide

/-- Attempts made by `connectLoop` never exceed `max_retries` (the length
of the planned outcome list). -/
theorem connectLoop_attempts_le (outcomes : List AttemptResult) :
    (connectLoop outcomes).2 ≤ outcomes.length := by
  induction outcomes with
  | nil => simp [connectLoop]
  | cons o rest ih =>
    cases o with
    | success => simp [connectLoop]
    | permanent => simp [connectLoop]
    | transient =>
      by_cases h : rest.isEmpty
      · simp [connectLoop, h]
      · simp only [connectLoop, h, if_false, Bool.false_eq_true,
          List.length_cons]
        exact Nat.succ_le_succ ih

/-- Claim C6 (amended): manager-level operations make a single driver call,
but `MongoDBClient.connect` implements a retry policy distinguishing
failure kinds: a transient connection failure is retried while attempts
remain (up to `max_retries` in total), any other exception aborts
immediately after one attempt, and success returns immediately. -/
theorem C6_connect_retry (rest : List AttemptResult) (o : AttemptResult) :
    connectLoop (.permanent :: rest) = (false, 1) ∧
    connectLoop (.success :: rest) = (true, 1) ∧
    connectLoop (.transient :: o :: rest) =
      ((connectLoop (o :: rest)).1, (connectLoop (o :: rest)).2 + 1) ∧
    (connectLoop rest).2 ≤ rest.length := by
  refine ⟨rfl, rfl, rfl, connectLoop_attempts_le rest⟩

/-- Claim C2 counterexample: when the driver call inside
`MovieSearchEngine.search_movies` raises, the method returns the sentinel
dict but emits no log entry at all (the class has no logger), so not every
operation logs the error. -/
theorem C2_counterexample :
    (search_movies (DriverOutcome.exn "boom")).2 = [] ∧
    (search_movies (DriverOutcome.exn "boom")).1.error =
      some "Search failed: boom" :=
  ⟨rfl, rfl⟩

/-- Claim C2 (amended): every database operation is wrapped in a broad
exception catch and returns an empty/sentinel value instead of
propagating; the MongoDB and Neo4j manager classes additionally log the
error, while `MovieSearchEngine` embeds the error message in the returned
sentinel dict without logging. -/
theorem C2_catch_all (e t : String) :
    find_all_books (.exn e) =
      ([], [⟨.error, "Error finding all books: " ++ e⟩]) ∧
    update_movie_rating t (.exn e) =
      (false, [⟨.error, "Error updating rating for " ++ t ++ ": " ++ e⟩]) ∧
    search_movies (.exn e) =
      ({ error := some ("Search failed: " ++ e), results := [], total := 0,
         took := 0, max_score := none }, []) :=
  ⟨rfl, rfl, rfl⟩

/-- Looking up the key just assigned returns the assigned value. -/
theorem dictLookup_dictInsert_self (k : String) (v : JsonVal)
    (l : List (String × JsonVal)) :
    dictLookup k (dictInsert k v l) = some v := by
  induction l with
  | nil => simp [dictInsert, dictLookup]
  | cons p rest ih =>
    by_cases h : p.1 = k
    · simp [dictInsert, dictLookup, h]
    · simpa [dictInsert, dictLookup, h] using ih

/-- Assigning one key leaves lookups of every other key unchanged. -/
theorem dictLookup_dictInsert_ne (k k' : String) (v : JsonVal)
    (l : List (String × JsonVal)) (h : k' ≠ k) :
    dictLookup k (dictInsert k' v l) = dictLookup k l := by
  induction l with
  | nil => simp [dictInsert, dictLookup, h]
  | cons p rest ih =>
    by_cases hp : p.1 = k'
    · simp [dictInsert, dictLookup, hp, h]
    · by_cases hk : p.1 = k
      · simp [dictInsert, dictLookup, hp, hk, Ne.symm h]
      · simpa [dictInsert, dictLookup, hp, hk] using ih

/-- Claim C8: `_format_search_response` flattens the nested response: each
result entry is the hit's `_source` augmented with `id` (the `_id`),
`score` (the `_score`) and, when present, `highlights`; `total` is
`hits.total.value` (0 when absent) and `took` is the response's `took`
(0 when absent). -/
theorem C8_format_response (r : EsResponse) :
    (format_search_response r).results.length = (hitsOf r).length ∧
    (∀ (i : ℕ) (hit : EsHit) (res : List (String × JsonVal)),
      (hitsOf r)[i]? = some hit →
      (format_search_response r).results[i]? = some res →
      dictLookup "id" res = some (.vStr hit.id) ∧
      dictLookup "score" res = some hit.score ∧
      (∀ h, hit.highlight = some h →
        dictLookup "highlights" res = some (.vObj h)) ∧
      (hit.highlight = none →
        dictLookup "highlights" res = dictLookup "highlights" hit.source) ∧
      (∀ k, k ≠ "id" → k ≠ "score" → k ≠ "highlights" →
        dictLookup k res = dictLookup k hit.source)) ∧
    (∀ hb tb, r.hits = some hb → hb.total = some tb →
      (format_search_response r).total = tb.value.getD 0) ∧
    (r.hits = none → (format_search_response r).total = 0) ∧
    (∀ hb, r.hits = some hb → hb.total = none →
      (format_search_response r).total = 0) ∧
    (∀ n, r.took = some n → (format_search_response r).took = n) ∧
    (r.took = none → (format_search_response r).took = 0) := by
  refine ⟨?_, ?_, ?_, ?_, ?_, ?_, ?_⟩
  · simp [format_search_response]
  · intro i hit res hhit hres
    have hres' : (format_search_response r).results[i]? =
        some (formatHit hit) := by
      simp [format_search_response, hhit]
    rw [hres'] at hres
    obtain rfl : formatHit hit = res := Option.some.inj hres
    have hid : dictLookup "id" (formatHit hit) = some (.vStr hit.id) := by
      unfold formatHit
      cases hh : hit.highlight with
      | some h =>
        rw [dictLookup_dictInsert_ne _ _ _ _ (by decide),
          dictLookup_dictInsert_ne _ _ _ _ (by decide),
          dictLookup_dictInsert_self]
      | none =>
        rw [dictLookup_dictInsert_ne _ _ _ _ (by decide),
          dictLookup_dictInsert_self]
    have hscore : dictLookup "score" (formatHit hit) = some hit.score := by
      unfold formatHit
      cases hh : hit.highlight with
      | some h =>
        rw [dictLookup_dictInsert_ne _ _ _ _ (by decide),
          dictLookup_dictInsert_self]
      | none => rw [dictLookup_dictInsert_self]
    refine ⟨hid, hscore, ?_, ?_, ?_⟩
    · intro h hh
      unfold formatHit
      rw [hh]
      exact dictLookup_dictInsert_self _ _ _
    · intro hh
      unfold formatHit
      rw [hh]
      rw [dictLookup_dictInsert_ne _ _ _ _ (by decide),
        dictLookup_dictInsert_ne _ _ _ _ (by decide)]
    · intro k hk1 hk2 hk3
      unfold formatHit
      cases hh : hit.highlight with
      | some h =>
        show dictLookup k (dictInsert "highlights" (.vObj h)
          (dictInsert "score" hit.score
            (dictInsert "id" (.vStr hit.id) hit.source))) =
          dictLookup k hit.source
        rw [dictLookup_dictInsert_ne _ _ _ _ (Ne.symm hk3),
          dictLookup_dictInsert_ne _ _ _ _ (Ne.symm hk2),
          dictLookup_dictInsert_ne _ _ _ _ (Ne.symm hk1)]
      | none =>
        show dictLookup k (dictInsert "score" hit.score
          (dictInsert "id" (.vStr hit.id) hit.source)) =
          dictLookup k hit.source
        rw [dictLookup_dictInsert_ne _ _ _ _ (Ne.symm hk2),
          dictLookup_dictInsert_ne _ _ _ _ (Ne.symm hk1)]
  · intro hb tb hhb htb
    simp [format_search_response, hhb, htb]
  · intro hnone
    simp [format_search_response, hnone, emptyHitsBlock]
  · intro hb hhb htb
    simp [format_search_response, hhb, htb]
  · intro n hn
    simp [format_search_response, hn]
  · intro hn
    simp [format_search_response, hn]

/-- Witness for C8 at a concrete one-hit response with highlights. -/
theorem C8_format_response_witness :
    dictLookup "id"
        (formatHit ⟨[("title", .vStr "Up")], "m1", .vNum 7,
          some [("title", .vStr "em")]⟩) = some (.vStr "m1") ∧
    dictLookup "score"
        (formatHit ⟨[("title", .vStr "Up")], "m1", .vNum 7,
          some [("title", .vStr "em")]⟩) = some (.vNum 7) ∧
    dictLookup "highlights"
        (formatHit ⟨[("title", .vStr "Up")], "m1", .vNum 7,
          some [("title", .vStr "em")]⟩) =
      some (.vObj [("title", .vStr "em")]) ∧
    dictLookup "title"
        (formatHit ⟨[("title", .vStr "Up")], "m1", .vNum 7,
          some [("title", .vStr "em")]⟩) = some (.vStr "Up") := by
  have h := (C8_format_response
    ⟨some ⟨[⟨[("title", .vStr "Up")], "m1", .vNum 7,
      some [("title", .vStr "em")]⟩], some ⟨some 1⟩, some (.vNum 7)⟩,
      some 4⟩).2.1 0
    ⟨[("title", .vStr "Up")], "m1", .vNum 7, some [("title", .vStr "em")]⟩
    (formatHit ⟨[("title", .vStr "Up")], "m1", .vNum 7,
      some [("title", .vStr "em")]⟩) rfl rfl
  exact ⟨h.1, h.2.1, h.2.2.1 [("title", .vStr "em")] rfl,
    h.2.2.2.2 "title" (by decide) (by decide) (by decide)⟩

/-- Claim C10: in both query builders a numeric filter value equal to 0 is
treated as an absent filter: the query built with `min_year` / `max_year`
/ `min_rating` / `max_rating` equal to 0 is identical to the query built
with that filter omitted. -/
theorem C10_zero_is_absent (f : BookFilters) (q g d : Option String)
    (miy may : Option ℤ) (mir mar : Option ℚ) :
    search_books_advanced_query { f with min_year := some 0 } =
      search_books_advanced_query { f with min_year := none } ∧
    search_books_advanced_query { f with max_year := some 0 } =
      search_books_advanced_query { f with max_year := none } ∧
    search_books_advanced_query { f with min_rating := some 0 } =
      search_books_advanced_query { f with min_rating := none } ∧
    search_books_advanced_query { f with max_rating := some 0 } =
      search_books_advanced_query { f with max_rating := none } ∧
    build_search_query q g (some 0) may mir mar d =
      build_search_query q g none may mir mar d ∧
    build_search_query q g miy (some 0) mir mar d =
      build_search_query q g miy none mir mar d ∧
    build_search_query q g miy may (some 0) mar d =
      build_search_query q g miy may none mar d ∧
    build_search_query q g miy may mir (some 0) d =
      build_search_query q g miy may mir none d := by
  refine ⟨?_, ?_, ?_, ?_, ?_, ?_, ?_, ?_⟩ <;>
    simp [search_books_advanced_query, build_search_query,
      truthyInt, truthyRat]

end DBAdvanced
